import Mathlib

/-!
Shallow embedding of `llamaparse.go` (package `llamaparse`, repository
X3NOOO/llamaparse-go).

The Go client performs three sequential HTTP interactions: a multipart
upload (`Parse`, lines 160-235), a status-poll loop, and a result fetch
(both in `getJobResult`, lines 66-142).  We embed it as pure functions:

* the network is a parameter `net : Nat → Except String HttpResp`, giving
  the outcome of the k-th HTTP call made during one `Parse` invocation
  (call 0 is the upload; the poll loop consumes subsequent indices, one per
  status request, plus one for the result fetch).  `Except.error e` models
  a transport error from `client.Do` carrying its message, so that
  "propagated verbatim" is expressible;
* wall-clock time is a parameter `now : Nat → Int`, the value (in
  nanoseconds) of `time.Since(start)` observed at the top of the i-th poll
  iteration; the sleep and request durations are absorbed into `now`;
* decoded JSON bodies are association lists of fields whose values are
  observed only through Go string type assertions (`.(string)`), so a
  value is either a string or `nonStr`; a body on which `json.Decode`
  errors is `Body.malformed msg` carrying the decode error message;
* the unbounded `for` loop of `getJobResult` is given a fuel argument;
  `none` means the fuel ran out (a model artifact - the Go loop simply
  keeps running), `some (r, reqs)` means the call returned `r` after
  issuing the HTTP requests `reqs` (in order).

Every function returns, besides its Go result, the list of HTTP requests
it issued, so that "without making any network call" and "never attempts
polling" are directly statable.
-/

namespace Llamaparse

/-- A decoded JSON field value as the Go code observes it: the code only
ever applies the type assertion `.(string)`, so we record whether the
value is a string (and which) or anything else. -/
inductive JValue where
  | str (s : String)
  | nonStr
deriving DecidableEq

/-- The body of an HTTP response, as seen through
`json.NewDecoder(resp.Body).Decode(&m)` into `map[string]interface{}`:
either the decode fails with an error message (`malformed`), or it yields
a field map, modelled as an association list. -/
inductive Body where
  | malformed (msg : String)
  | obj (fields : List (String × JValue))
deriving DecidableEq

/-- An HTTP response: status code and (decodable or not) JSON body. -/
structure HttpResp where
  statusCode : Nat
  body : Body
deriving DecidableEq

/-- The errors `Parse`/`getJobResult` can return.  The first four embed
the package-level error values of llamaparse.go lines 27-30; `transport`
is an error returned by `client.Do` (propagated verbatim with its
message), `decode` is an error returned by `json.Decoder.Decode`. -/
inductive GoError where
  | ErrNoAPIKey
  | ErrEmptyFile
  | ErrParsingFailed
  | ErrTimeoutReached
  | transport (msg : String)
  | decode (msg : String)
deriving DecidableEq

/-- An HTTP request as built by the Go code: method, URL, the
`Authorization` header value, and for the upload the multipart payload
(file bytes and optional language field, llamaparse.go lines 36-64). -/
structure Request where
  method : String
  url : String
  auth : String
  payload : Option (List Nat × Option String)
deriving DecidableEq

/-- Lookup in the decoded field map (`m["key"]`; `none` models Go's nil
result for a missing key). -/
def mapGet (fields : List (String × JValue)) (key : String) : Option JValue :=
  (fields.find? (fun p => p.1 == key)).map (fun p => p.2)

/-- The Go idiom `s, ok := m["key"].(string)`: `some s` when the key is
present with a string value, `none` when absent or not a string. -/
def getString (fields : List (String × JValue)) (key : String) : Option String :=
  match mapGet fields key with
  | some (JValue.str s) => some s
  | _ => none

/-- llamaparse.go line 21. -/
def BASE_URL : String := "https://api.cloud.llamaindex.ai"

/-- llamaparse.go line 22. -/
def DEFAULT_MAX_TIMEOUT_SECONDS : Int := 2000

/-- llamaparse.go line 23. -/
def DEFAULT_CHECK_INTERVAL_SECONDS : Int := 1

/-- Go `time.Second` in nanoseconds: durations are modelled as `Int`
nanosecond counts, as Go's `time.Duration` is an int64 nanosecond count. -/
def second : Int := 1000000000

/-- Go `type LlamaParseMode string` (llamaparse.go line 14). -/
abbrev LlamaParseMode := String

/-- llamaparse.go line 17. -/
def MARKDOWN : LlamaParseMode := "markdown"

/-- llamaparse.go line 18. -/
def TEXT : LlamaParseMode := "text"

/-- llamaparse.go line 19. -/
def JSON : LlamaParseMode := "json"

/-- The status-poll request (llamaparse.go lines 71, 82-88):
`GET {baseUrl}/api/parsing/job/{jobID}` with a bearer header. -/
def statusRequest (apiKey baseUrl jobID : String) : Request :=
  { method := "GET"
    url := baseUrl ++ "/api/parsing/job/" ++ jobID
    auth := "Bearer " ++ apiKey
    payload := none }

/-- The result-fetch request (llamaparse.go lines 72, 111-117):
`GET {baseUrl}/api/parsing/job/{jobID}/result/{mode}` with a bearer
header. -/
def resultRequest (apiKey baseUrl jobID : String) (mode : LlamaParseMode) : Request :=
  { method := "GET"
    url := baseUrl ++ "/api/parsing/job/" ++ jobID ++ "/result/" ++ mode
    auth := "Bearer " ++ apiKey
    payload := none }

/-- The upload request (llamaparse.go lines 176-189):
`POST {BASE_URL}/api/parsing/upload` with a bearer header and the
multipart body built from the file bytes and optional language. -/
def uploadRequest (apiKey : String) (file : List Nat) (language : Option String) : Request :=
  { method := "POST"
    url := BASE_URL ++ "/api/parsing/upload"
    auth := "Bearer " ++ apiKey
    payload := some (file, language) }

/-- llamaparse.go lines 106-107: `status, ok := statusResponse["status"].(string)`
followed by `!ok || status != "SUCCESS"`; this is the negation of that
continue-condition, i.e. `true` exactly when the loop proceeds to the
result fetch. -/
def statusIsSuccess (fields : List (String × JValue)) : Bool :=
  match getString fields "status" with
  | some status => status == "SUCCESS"
  | none => false

/-- llamaparse.go lines 111-140: the result fetch performed once a
SUCCESS status was observed.  `rResp` is the outcome of `client.Do` on
the result request: a transport error is returned as-is (line 121), a
non-200 status yields `ErrParsingFailed` (line 126), a body on which
decoding fails yields that decode error (line 132), a decoded body whose
`mode` key is absent or not a string yields `ErrParsingFailed`
(line 137), and otherwise the string value is returned (line 140). -/
def fetchResult (mode : LlamaParseMode) (rResp : Except String HttpResp) :
    Except GoError String :=
  match rResp with
  | Except.error e => Except.error (GoError.transport e)
  | Except.ok resp =>
    if resp.statusCode ≠ 200 then
      Except.error GoError.ErrParsingFailed
    else
      match resp.body with
      | Body.malformed m => Except.error (GoError.decode m)
      | Body.obj fields =>
        match getString fields mode with
        | some result => Except.ok result
        | none => Except.error GoError.ErrParsingFailed

/-- The `for` loop of `getJobResult` (llamaparse.go lines 75-141).
Arguments `i k fuel`: `i` is the iteration index (`now i` is
`time.Since(start)` observed at the top of this pass, line 76), `k` is
the index of the next network call, `fuel` bounds the number of
iterations the model can take (`none` = fuel exhausted; the Go loop has
no such bound).  Each pass: the timeout check (line 76) returns
`ErrTimeoutReached` before the sleep and before any request of this pass;
then the sleep (line 80, absorbed into `now`); then the status request
(lines 82-93): a transport error is returned as-is, a non-200 status
continues the loop (line 97), a decode failure returns that error
(line 103), a body whose status field is not the string SUCCESS continues
the loop (line 108), and otherwise the result fetch (lines 111-140) is
performed, consuming network call `k+1`.  The returned list collects the
requests issued, in order. -/
def getJobResultLoop (sReq rReq : Request) (mode : LlamaParseMode)
    (timeout checkInterval : Int) (net : Nat → Except String HttpResp)
    (now : Nat → Int) :
    Nat → Nat → Nat → Option (Except GoError String × List Request)
  | _, _, 0 => none
  | i, k, fuel + 1 =>
    if now i > timeout then
      some (Except.error GoError.ErrTimeoutReached, [])
    else
      match net k with
      | Except.error e => some (Except.error (GoError.transport e), [sReq])
      | Except.ok resp =>
        if resp.statusCode ≠ 200 then
          (getJobResultLoop sReq rReq mode timeout checkInterval net now (i + 1) (k + 1) fuel).map
            (fun p => (p.1, sReq :: p.2))
        else
          match resp.body with
          | Body.malformed m => some (Except.error (GoError.decode m), [sReq])
          | Body.obj fields =>
            if statusIsSuccess fields then
              some (fetchResult mode (net (k + 1)), [sReq, rReq])
            else
              (getJobResultLoop sReq rReq mode timeout checkInterval net now (i + 1) (k + 1) fuel).map
                (fun p => (p.1, sReq :: p.2))

/-- llamaparse.go lines 66-142: builds the status and result URLs
(lines 71-72) and runs the poll loop.  `k0` is the index of the first
network call the loop makes (`1` when called from `Parse`, the upload
having consumed call `0`). -/
def getJobResult (apiKey baseUrl jobID : String) (mode : LlamaParseMode)
    (timeout checkInterval : Int) (net : Nat → Except String HttpResp)
    (now : Nat → Int) (k0 fuel : Nat) :
    Option (Except GoError String × List Request) :=
  getJobResultLoop (statusRequest apiKey baseUrl jobID)
    (resultRequest apiKey baseUrl jobID mode) mode timeout checkInterval
    net now 0 k0 fuel

/-- llamaparse.go lines 165-174: the API key is the explicit argument
when one is supplied; only when it is omitted is the environment variable
read, and only then is emptiness checked (`envAPIKey` is the value of
`os.Getenv("LLAMA_CLOUD_API_KEY")`, which is `""` when the variable is
unset). -/
def resolveAPIKey (apiKeyOptional : Option String) (envAPIKey : String) :
    Except GoError String :=
  match apiKeyOptional with
  | some k => Except.ok k
  | none =>
    if envAPIKey == "" then Except.error GoError.ErrNoAPIKey
    else Except.ok envAPIKey

/-- llamaparse.go lines 191-197: the timeout in seconds, defaulting to
`DEFAULT_MAX_TIMEOUT_SECONDS` when the optional argument is nil. -/
def timeoutSecondsOf (timeoutSecondsOptional : Option Int) : Int :=
  match timeoutSecondsOptional with
  | some t => t
  | none => DEFAULT_MAX_TIMEOUT_SECONDS

/-- llamaparse.go lines 222-227: the check interval in seconds,
defaulting to `DEFAULT_CHECK_INTERVAL_SECONDS` when the optional argument
is nil. -/
def checkIntervalSecondsOf (checkIntervalSecondsOptional : Option Int) : Int :=
  match checkIntervalSecondsOptional with
  | some c => c
  | none => DEFAULT_CHECK_INTERVAL_SECONDS

/-- llamaparse.go lines 160-235, `Parse`.  The empty-file check
(lines 161-163) and key resolution (lines 165-174) happen before any
request.  The multipart body construction (lines 36-64, in-memory buffer
writes that cannot fail) is embedded into `uploadRequest`.  Network call
`0` is the upload (line 201): a transport error is returned as-is, a
non-200 status yields `ErrParsingFailed` (line 208), a decode failure
returns that error (line 214), a body whose `id` key is absent or not a
string yields `ErrParsingFailed` (line 219), and otherwise `getJobResult`
polls with the configured timeout and interval converted to durations
(line 229), its outcome returned unchanged (lines 230-234). -/
def Parse (file : List Nat) (mode : LlamaParseMode) (apiKeyOptional : Option String)
    (languageOptional : Option String) (timeoutSecondsOptional : Option Int)
    (checkIntervalSecondsOptional : Option Int) (envAPIKey : String)
    (net : Nat → Except String HttpResp) (now : Nat → Int) (fuel : Nat) :
    Option (Except GoError String × List Request) :=
  if file.length = 0 then
    some (Except.error GoError.ErrEmptyFile, [])
  else
    match resolveAPIKey apiKeyOptional envAPIKey with
    | Except.error e => some (Except.error e, [])
    | Except.ok apiKey =>
      let req := uploadRequest apiKey file languageOptional
      let timeoutSeconds := timeoutSecondsOf timeoutSecondsOptional
      match net 0 with
      | Except.error e => some (Except.error (GoError.transport e), [req])
      | Except.ok resp =>
        if resp.statusCode ≠ 200 then
          some (Except.error GoError.ErrParsingFailed, [req])
        else
          match resp.body with
          | Body.malformed m => some (Except.error (GoError.decode m), [req])
          | Body.obj fields =>
            match getString fields "id" with
            | none => some (Except.error GoError.ErrParsingFailed, [req])
            | some jobID =>
              let checkIntervalSeconds :=
                checkIntervalSecondsOf checkIntervalSecondsOptional
              match getJobResult apiKey BASE_URL jobID mode
                  (timeoutSeconds * second) (checkIntervalSeconds * second)
                  net now 1 fuel with
              | none => none
              | some p => some (p.1, req :: p.2)

/-- A network on which every call fails with a transport error; used to
exhibit runs in which no response is ever consumed. -/
def noNet : Nat → Except String HttpResp :=
  fun _ => Except.error "no network"

/-- A clock that never advances. -/
def zeroNow : Nat → Int :=
  fun _ => 0

end Llamaparse

namespace Llamaparse

/-! Helper lemmas and concrete networks used by the claim theorems,
their witnesses and counterexamples. -/

/-- The result fetch can only produce a transport error, a decode error,
`ErrParsingFailed`, or a string; never the credential error. -/
theorem fetchResult_ne_ErrNoAPIKey (mode : LlamaParseMode)
    (rResp : Except String HttpResp) :
    fetchResult mode rResp ≠ Except.error GoError.ErrNoAPIKey := by
  unfold fetchResult
  rcases rResp with e | resp
  · simp
  · by_cases hs : resp.statusCode ≠ 200
    · simp [hs]
    · rcases hb : resp.body with m | fields
      · simp [hs, hb]
      · rcases hg : getString fields mode with _ | s <;> simp [hs, hb, hg]

/-- The poll loop never produces the credential error. -/
theorem getJobResultLoop_ne_ErrNoAPIKey (sReq rReq : Request) (mode : LlamaParseMode)
    (timeout ci : Int) (net : Nat → Except String HttpResp) (now : Nat → Int) :
    ∀ fuel i k r reqs,
      getJobResultLoop sReq rReq mode timeout ci net now i k fuel = some (r, reqs) →
      r ≠ Except.error GoError.ErrNoAPIKey := by
  intro fuel
  induction fuel with
  | zero => intro i k r reqs h; simp [getJobResultLoop] at h
  | succ n ih =>
    intro i k r reqs h
    rw [getJobResultLoop] at h
    split at h
    · simp at h
      obtain ⟨rfl, rfl⟩ := h
      simp
    · split at h
      · simp at h
        obtain ⟨rfl, rfl⟩ := h
        simp
      · split at h
        · rw [Option.map_eq_some'] at h
          obtain ⟨p, hp1, hp2⟩ := h
          simp at hp2
          rw [← hp2.1]
          exact ih (i + 1) (k + 1) p.1 p.2 (by rw [hp1])
        · split at h
          · simp at h
            obtain ⟨rfl, rfl⟩ := h
            simp
          · split at h
            · simp at h
              obtain ⟨rfl, rfl⟩ := h
              exact fetchResult_ne_ErrNoAPIKey mode (net (k + 1))
            · rw [Option.map_eq_some'] at h
              obtain ⟨p, hp1, hp2⟩ := h
              simp at hp2
              rw [← hp2.1]
              exact ih (i + 1) (k + 1) p.1 p.2 (by rw [hp1])

/-- A network whose first status answer carries a SUCCESS status and
whose next answer carries a markdown payload. -/
def c1net : Nat → Except String HttpResp :=
  fun k =>
    if k = 0 then Except.ok ⟨200, Body.obj [("status", JValue.str "SUCCESS")]⟩
    else Except.ok ⟨200, Body.obj [("markdown", JValue.str "hi")]⟩

/-- A clock already past a timeout of 10. -/
def c2now : Nat → Int :=
  fun _ => 11

/-- A network whose first status answer is a 200 with an undecodable
body, after which a SUCCESS status and a markdown payload would follow. -/
def c3netMalformed : Nat → Except String HttpResp :=
  fun k =>
    if k = 0 then Except.ok ⟨200, Body.malformed "bad"⟩
    else if k = 1 then Except.ok ⟨200, Body.obj [("status", JValue.str "SUCCESS")]⟩
    else Except.ok ⟨200, Body.obj [("markdown", JValue.str "hi")]⟩

/-- Like `c3netMalformed` but the first status answer is a 500 instead of
a malformed 200 body. -/
def c3netNon200 : Nat → Except String HttpResp :=
  fun k =>
    if k = 0 then Except.ok ⟨500, Body.obj []⟩
    else if k = 1 then Except.ok ⟨200, Body.obj [("status", JValue.str "SUCCESS")]⟩
    else Except.ok ⟨200, Body.obj [("markdown", JValue.str "hi")]⟩

/-- A network whose every answer is a 200 with an undecodable body. -/
def c4net : Nat → Except String HttpResp :=
  fun _ => Except.ok ⟨200, Body.malformed "bad json"⟩

/-- A network whose upload answer is a 200 whose decoded body has no
string field named id. -/
def c4netNoId : Nat → Except String HttpResp :=
  fun _ => Except.ok ⟨200, Body.obj [("notid", JValue.str "x")]⟩

/-- A network whose every answer is a 404. -/
def c5net : Nat → Except String HttpResp :=
  fun _ => Except.ok ⟨404, Body.obj []⟩

/-- A network realising the happy path: upload answers with a job id,
the first status answer is SUCCESS, the result answer carries markdown
payload "hello". -/
def c6net : Nat → Except String HttpResp :=
  fun k =>
    if k = 0 then Except.ok ⟨200, Body.obj [("id", JValue.str "job1")]⟩
    else if k = 1 then Except.ok ⟨200, Body.obj [("status", JValue.str "SUCCESS")]⟩
    else Except.ok ⟨200, Body.obj [("markdown", JValue.str "hello")]⟩

end Llamaparse

namespace Llamaparse

/-- C1: in the poll loop, the success terminal condition holds exactly
when the decoded status response has a field named "status" whose value
is the string "SUCCESS" (case-sensitive, exact match); on a 200 response
with any other decoded body - other string, non-string value, or missing
field - the loop performs another poll iteration instead of returning a
distinct error. -/
theorem c1_success_terminal_condition (fields : List (String × JValue)) :
    (statusIsSuccess fields = true ↔
      mapGet fields "status" = some (JValue.str "SUCCESS")) ∧
    ∀ (sReq rReq : Request) (mode : LlamaParseMode) (timeout checkInterval : Int)
      (net : Nat → Except String HttpResp) (now : Nat → Int) (i k fuel : Nat),
      ¬ now i > timeout →
      net k = Except.ok ⟨200, Body.obj fields⟩ →
      getJobResultLoop sReq rReq mode timeout checkInterval net now i k (fuel + 1) =
        if statusIsSuccess fields then
          some (fetchResult mode (net (k + 1)), [sReq, rReq])
        else
          (getJobResultLoop sReq rReq mode timeout checkInterval net now
              (i + 1) (k + 1) fuel).map (fun p => (p.1, sReq :: p.2)) := by
  constructor
  · unfold statusIsSuccess getString
    rcases h : mapGet fields "status" with _ | v
    · simp
    · cases v <;> simp
  · intro sReq rReq mode timeout checkInterval net now i k fuel h1 h2
    simp [getJobResultLoop, h1, h2]

/-- Witness for C1: a run in which the first status answer is
`{"status":"SUCCESS"}` exits the loop through the result fetch. -/
theorem c1_witness :
    getJobResultLoop (statusRequest "key" BASE_URL "job1")
        (resultRequest "key" BASE_URL "job1" MARKDOWN) MARKDOWN 10 1 c1net zeroNow
        0 0 4 =
      some (Except.ok "hi",
        [statusRequest "key" BASE_URL "job1",
         resultRequest "key" BASE_URL "job1" MARKDOWN]) :=
  (c1_success_terminal_condition [("status", JValue.str "SUCCESS")]).2
    (statusRequest "key" BASE_URL "job1")
    (resultRequest "key" BASE_URL "job1" MARKDOWN) MARKDOWN 10 1 c1net zeroNow
    0 0 3 (by decide) rfl

/-- C2: on every pass of the poll loop, the elapsed time `now i` is
compared against the timeout first; whenever it exceeds the timeout the
loop returns `ErrTimeoutReached` at once, issuing no request on that pass
or any later one (the request trace of the outcome is empty). -/
theorem c2_timeout_check_first (sReq rReq : Request) (mode : LlamaParseMode)
    (timeout checkInterval : Int) (net : Nat → Except String HttpResp)
    (now : Nat → Int) (i k fuel : Nat) (h : now i > timeout) :
    getJobResultLoop sReq rReq mode timeout checkInterval net now i k (fuel + 1) =
      some (Except.error GoError.ErrTimeoutReached, []) := by
  simp [getJobResultLoop, h]

/-- Witness for C2: with the clock already at 11 against a timeout of 10,
the loop returns `ErrTimeoutReached` without consuming the network (which
here would fail every call). -/
theorem c2_witness :
    getJobResultLoop (statusRequest "key" BASE_URL "job1")
        (resultRequest "key" BASE_URL "job1" MARKDOWN) MARKDOWN 10 1 noNet c2now
        0 0 1 =
      some (Except.error GoError.ErrTimeoutReached, []) :=
  c2_timeout_check_first (statusRequest "key" BASE_URL "job1")
    (resultRequest "key" BASE_URL "job1" MARKDOWN) MARKDOWN 10 1 noNet c2now
    0 0 0 (by decide)

/-- Counterexample to C3 as stated: a 200 status response whose body does
not decode is NOT silently retried - the loop aborts with the decode
error after the single status request (first conjunct), although the very
next poll would have found SUCCESS; by contrast a 500 status response at
the same position is retried and the run completes (second conjunct). -/
theorem c3_counterexample :
    getJobResultLoop (statusRequest "key" BASE_URL "job1")
        (resultRequest "key" BASE_URL "job1" MARKDOWN) MARKDOWN 10 1
        c3netMalformed zeroNow 0 0 5 =
      some (Except.error (GoError.decode "bad"),
        [statusRequest "key" BASE_URL "job1"]) ∧
    getJobResultLoop (statusRequest "key" BASE_URL "job1")
        (resultRequest "key" BASE_URL "job1" MARKDOWN) MARKDOWN 10 1
        c3netNon200 zeroNow 0 0 5 =
      some (Except.ok "hi",
        [statusRequest "key" BASE_URL "job1", statusRequest "key" BASE_URL "job1",
         resultRequest "key" BASE_URL "job1" MARKDOWN]) :=
  ⟨rfl, rfl⟩

/-- C3 amended: during status checks, a transport error aborts the loop
immediately and is propagated verbatim, and so does a decode failure of a
200 body (propagating the decode error); only a non-200 status code, and
a decoded body whose "status" field is absent, not a string, or not
"SUCCESS", are silently ignored with another poll iteration. -/
theorem c3_amended (sReq rReq : Request) (mode : LlamaParseMode)
    (timeout checkInterval : Int) (net : Nat → Except String HttpResp)
    (now : Nat → Int) (i k fuel : Nat) (ht : ¬ now i > timeout) :
    (∀ e, net k = Except.error e →
      getJobResultLoop sReq rReq mode timeout checkInterval net now i k (fuel + 1) =
        some (Except.error (GoError.transport e), [sReq])) ∧
    (∀ m, net k = Except.ok ⟨200, Body.malformed m⟩ →
      getJobResultLoop sReq rReq mode timeout checkInterval net now i k (fuel + 1) =
        some (Except.error (GoError.decode m), [sReq])) ∧
    (∀ resp, net k = Except.ok resp → resp.statusCode ≠ 200 →
      getJobResultLoop sReq rReq mode timeout checkInterval net now i k (fuel + 1) =
        (getJobResultLoop sReq rReq mode timeout checkInterval net now
            (i + 1) (k + 1) fuel).map (fun p => (p.1, sReq :: p.2))) ∧
    (∀ fields, net k = Except.ok ⟨200, Body.obj fields⟩ →
      statusIsSuccess fields = false →
      getJobResultLoop sReq rReq mode timeout checkInterval net now i k (fuel + 1) =
        (getJobResultLoop sReq rReq mode timeout checkInterval net now
            (i + 1) (k + 1) fuel).map (fun p => (p.1, sReq :: p.2))) := by
  refine ⟨?_, ?_, ?_, ?_⟩
  · intro e he
    simp [getJobResultLoop, ht, he]
  · intro m hm
    simp [getJobResultLoop, ht, hm]
  · intro resp hr hs
    simp [getJobResultLoop, ht, hr, hs]
  · intro fields hf hss
    simp [getJobResultLoop, ht, hf, hss]

/-- Witness for C3 amended: a transport error "no network" on the first
status request is returned as-is after that one request. -/
theorem c3_witness :
    getJobResultLoop (statusRequest "key" BASE_URL "job1")
        (resultRequest "key" BASE_URL "job1" MARKDOWN) MARKDOWN 10 1 noNet zeroNow
        0 0 2 =
      some (Except.error (GoError.transport "no network"),
        [statusRequest "key" BASE_URL "job1"]) :=
  (c3_amended (statusRequest "key" BASE_URL "job1")
    (resultRequest "key" BASE_URL "job1" MARKDOWN) MARKDOWN 10 1 noNet zeroNow
    0 0 1 (by decide)).1 "no network" rfl

/-- Counterexample to C4 as stated: an upload response whose body does
not decode makes `Parse` return the decode error, not `ErrParsingFailed`. -/
theorem c4_counterexample :
    Parse [1] MARKDOWN (some "key") none none none "" c4net zeroNow 1 =
      some (Except.error (GoError.decode "bad json"),
        [uploadRequest "key" [1] none]) ∧
    GoError.decode "bad json" ≠ GoError.ErrParsingFailed :=
  ⟨rfl, by decide⟩

/-- C4 amended: an unexpected JSON shape - a decoded object lacking the
expected string field - at the upload stage ("id") or at the result-fetch
stage (the mode name) makes `Parse` return `ErrParsingFailed`; a body on
which decoding itself fails instead makes it return that decode error
verbatim. -/
theorem c4_amended (file : List Nat) (mode : LlamaParseMode)
    (keyOpt : Option String) (lang : Option String) (topt copt : Option Int)
    (env apiKey : String) (net : Nat → Except String HttpResp) (now : Nat → Int)
    (fuel : Nat) (h : file.length ≠ 0)
    (hk : resolveAPIKey keyOpt env = Except.ok apiKey) :
    (∀ fields, net 0 = Except.ok ⟨200, Body.obj fields⟩ →
      getString fields "id" = none →
      Parse file mode keyOpt lang topt copt env net now fuel =
        some (Except.error GoError.ErrParsingFailed,
          [uploadRequest apiKey file lang])) ∧
    (∀ m, net 0 = Except.ok ⟨200, Body.malformed m⟩ →
      Parse file mode keyOpt lang topt copt env net now fuel =
        some (Except.error (GoError.decode m), [uploadRequest apiKey file lang])) ∧
    (∀ fields, getString fields mode = none →
      fetchResult mode (Except.ok ⟨200, Body.obj fields⟩) =
        Except.error GoError.ErrParsingFailed) ∧
    (∀ m, fetchResult mode (Except.ok ⟨200, Body.malformed m⟩) =
      Except.error (GoError.decode m)) := by
  refine ⟨?_, ?_, ?_, ?_⟩
  · intro fields hn hid
    simp [Parse, h, hk, hn, hid]
  · intro m hn
    simp [Parse, h, hk, hn]
  · intro fields hg
    simp [fetchResult, hg]
  · intro m
    simp [fetchResult]

/-- Witness for C4 amended: an upload answer decoding to an object with
no "id" field makes `Parse` return `ErrParsingFailed` after the single
upload request. -/
theorem c4_witness :
    Parse [1] MARKDOWN (some "key") none none none "" c4netNoId zeroNow 1 =
      some (Except.error GoError.ErrParsingFailed, [uploadRequest "key" [1] none]) :=
  (c4_amended [1] MARKDOWN (some "key") none none none "" "key" c4netNoId zeroNow
    1 (by decide) rfl).1 [("notid", JValue.str "x")] rfl rfl

/-- C5: a non-200 upload response makes `Parse` return `ErrParsingFailed`
with the upload as the only request ever issued (so polling is never
attempted), and a 200 upload response whose decoded body lacks a string
field "id" does the same. -/
theorem c5_upload_failure (file : List Nat) (mode : LlamaParseMode)
    (keyOpt : Option String) (lang : Option String) (topt copt : Option Int)
    (env apiKey : String) (net : Nat → Except String HttpResp) (now : Nat → Int)
    (fuel : Nat) (h : file.length ≠ 0)
    (hk : resolveAPIKey keyOpt env = Except.ok apiKey) :
    (∀ resp, net 0 = Except.ok resp → resp.statusCode ≠ 200 →
      Parse file mode keyOpt lang topt copt env net now fuel =
        some (Except.error GoError.ErrParsingFailed,
          [uploadRequest apiKey file lang])) ∧
    (∀ fields, net 0 = Except.ok ⟨200, Body.obj fields⟩ →
      getString fields "id" = none →
      Parse file mode keyOpt lang topt copt env net now fuel =
        some (Except.error GoError.ErrParsingFailed,
          [uploadRequest apiKey file lang])) := by
  constructor
  · intro resp hn hs
    simp [Parse, h, hk, hn, hs]
  · intro fields hn hid
    simp [Parse, h, hk, hn, hid]

/-- Witness for C5: a 404 upload answer yields `ErrParsingFailed` and a
request trace containing only the upload. -/
theorem c5_witness :
    Parse [1] MARKDOWN (some "key") none none none "" c5net zeroNow 1 =
      some (Except.error GoError.ErrParsingFailed, [uploadRequest "key" [1] none]) :=
  (c5_upload_failure [1] MARKDOWN (some "key") none none none "" "key" c5net
    zeroNow 1 (by decide) rfl).1 ⟨404, Body.obj []⟩ rfl (by decide)

end Llamaparse

namespace Llamaparse

/-- C6: once a success status is observed, exactly one result-fetch
request is issued - built with the originally requested mode in its URL -
and the run ends with the fetch outcome: a non-200 result response gives
`ErrParsingFailed`, a decoded result body whose mode-named field is
absent or not a string gives `ErrParsingFailed`, and otherwise `Parse`
returns that field's string value. -/
theorem c6_result_fetch (file : List Nat) (mode : LlamaParseMode)
    (keyOpt : Option String) (lang : Option String) (topt copt : Option Int)
    (env apiKey jobID : String) (uFields sFields : List (String × JValue))
    (net : Nat → Except String HttpResp) (now : Nat → Int) (fuel : Nat)
    (h : file.length ≠ 0) (hk : resolveAPIKey keyOpt env = Except.ok apiKey)
    (hu : net 0 = Except.ok ⟨200, Body.obj uFields⟩)
    (hid : getString uFields "id" = some jobID)
    (ht : ¬ now 0 > timeoutSecondsOf topt * second)
    (hs : net 1 = Except.ok ⟨200, Body.obj sFields⟩)
    (hss : statusIsSuccess sFields = true) :
    (Parse file mode keyOpt lang topt copt env net now (fuel + 1) =
      some (fetchResult mode (net 2),
        [uploadRequest apiKey file lang, statusRequest apiKey BASE_URL jobID,
         resultRequest apiKey BASE_URL jobID mode])) ∧
    ((resultRequest apiKey BASE_URL jobID mode).url =
      BASE_URL ++ "/api/parsing/job/" ++ jobID ++ "/result/" ++ mode) ∧
    (∀ resp, resp.statusCode ≠ 200 →
      fetchResult mode (Except.ok resp) = Except.error GoError.ErrParsingFailed) ∧
    (∀ fields, getString fields mode = none →
      fetchResult mode (Except.ok ⟨200, Body.obj fields⟩) =
        Except.error GoError.ErrParsingFailed) ∧
    (∀ fields s, getString fields mode = some s →
      fetchResult mode (Except.ok ⟨200, Body.obj fields⟩) = Except.ok s) := by
  refine ⟨?_, rfl, ?_, ?_, ?_⟩
  · simp [Parse, h, hk, hu, hid, getJobResult, getJobResultLoop, ht, hs, hss]
  · intro resp hrs
    simp [fetchResult, hrs]
  · intro fields hg
    simp [fetchResult, hg]
  · intro fields s hg
    simp [fetchResult, hg]

/-- Witness for C6: the happy path - upload answers `{"id":"job1"}`, the
first status answer is SUCCESS, the result answer is
`{"markdown":"hello"}` - returns "hello" after exactly three requests,
the last being the result fetch for mode markdown. -/
theorem c6_witness :
    Parse [7] MARKDOWN (some "key") none none none "" c6net zeroNow 3 =
      some (Except.ok "hello",
        [uploadRequest "key" [7] none, statusRequest "key" BASE_URL "job1",
         resultRequest "key" BASE_URL "job1" MARKDOWN]) :=
  (c6_result_fetch [7] MARKDOWN (some "key") none none none "" "key" "job1"
    [("id", JValue.str "job1")] [("status", JValue.str "SUCCESS")] c6net zeroNow
    2 (by decide) rfl rfl rfl (by decide) rfl rfl).1

/-- C7: for every empty file byte sequence, `Parse` returns
`ErrEmptyFile` with an empty request trace (no network call), regardless
of every other argument. -/
theorem c7_empty_input (file : List Nat) (mode : LlamaParseMode)
    (keyOpt : Option String) (lang : Option String) (topt copt : Option Int)
    (env : String) (net : Nat → Except String HttpResp) (now : Nat → Int)
    (fuel : Nat) (h : file.length = 0) :
    Parse file mode keyOpt lang topt copt env net now fuel =
      some (Except.error GoError.ErrEmptyFile, []) := by
  simp [Parse, h]

/-- Witness for C7: the empty file is rejected before the network (which
here would fail every call) is ever consulted. -/
theorem c7_witness :
    Parse [] MARKDOWN (some "key") none none none "env" noNet zeroNow 1 =
      some (Except.error GoError.ErrEmptyFile, []) :=
  c7_empty_input [] MARKDOWN (some "key") none none none "env" noNet zeroNow 1 rfl

/-- Counterexample to C8 as stated: the empty-file check runs first, so a
call with an empty file, the credential omitted and no environment value
returns `ErrEmptyFile`, not `ErrNoAPIKey`. -/
theorem c8_counterexample :
    Parse [] MARKDOWN none none none none "" noNet zeroNow 1 =
      some (Except.error GoError.ErrEmptyFile, []) ∧
    GoError.ErrEmptyFile ≠ GoError.ErrNoAPIKey :=
  ⟨rfl, by decide⟩

/-- C8 amended: for every call with a non-empty file, the credential
argument omitted and no credential in the environment (Go's `os.Getenv`
yields the empty string), `Parse` returns `ErrNoAPIKey` with an empty
request trace (no network call). -/
theorem c8_missing_credential (file : List Nat) (mode : LlamaParseMode)
    (lang : Option String) (topt copt : Option Int)
    (net : Nat → Except String HttpResp) (now : Nat → Int) (fuel : Nat)
    (h : file.length ≠ 0) :
    Parse file mode none lang topt copt "" net now fuel =
      some (Except.error GoError.ErrNoAPIKey, []) := by
  simp [Parse, h, resolveAPIKey]

/-- Witness for C8 amended: a one-byte file with no credential anywhere
is rejected with `ErrNoAPIKey` before the network (which here would fail
every call) is ever consulted. -/
theorem c8_witness :
    Parse [1] MARKDOWN none none none none "" noNet zeroNow 1 =
      some (Except.error GoError.ErrNoAPIKey, []) :=
  c8_missing_credential [1] MARKDOWN none none none noNet zeroNow 1 (by decide)

/-- C9: the defaults are 2000 seconds of total timeout and 1 second of
poll interval; an omitted optional behaves exactly like supplying its
default, and a supplied value is used as-is. -/
theorem c9_defaults :
    DEFAULT_MAX_TIMEOUT_SECONDS = 2000 ∧
    DEFAULT_CHECK_INTERVAL_SECONDS = 1 ∧
    timeoutSecondsOf none = 2000 ∧
    (∀ t, timeoutSecondsOf (some t) = t) ∧
    checkIntervalSecondsOf none = 1 ∧
    (∀ c, checkIntervalSecondsOf (some c) = c) ∧
    ∀ (file : List Nat) (mode : LlamaParseMode) (keyOpt : Option String)
      (lang : Option String) (topt copt : Option Int) (env : String)
      (net : Nat → Except String HttpResp) (now : Nat → Int) (fuel : Nat),
      Parse file mode keyOpt lang topt copt env net now fuel =
        Parse file mode keyOpt lang (some (timeoutSecondsOf topt))
          (some (checkIntervalSecondsOf copt)) env net now fuel := by
  refine ⟨rfl, rfl, rfl, fun t => rfl, rfl, fun c => rfl, ?_⟩
  intro file mode keyOpt lang topt copt env net now fuel
  cases topt <;> cases copt <;> rfl

/-- C10: an explicitly supplied empty-string credential is accepted: the
environment is not consulted (the resolution succeeds with "" for every
environment value), `Parse` never returns `ErrNoAPIKey`, and the first
request carries the header value "Bearer " built from the empty
credential. -/
theorem c10_explicit_empty_credential (env : String) :
    resolveAPIKey (some "") env = Except.ok "" ∧
    ∀ (file : List Nat) (mode : LlamaParseMode) (lang : Option String)
      (topt copt : Option Int) (net : Nat → Except String HttpResp)
      (now : Nat → Int) (fuel : Nat) (r : Except GoError String)
      (reqs : List Request),
      file.length ≠ 0 →
      Parse file mode (some "") lang topt copt env net now fuel = some (r, reqs) →
      r ≠ Except.error GoError.ErrNoAPIKey ∧
        reqs.head? = some (uploadRequest "" file lang) := by
  refine ⟨rfl, ?_⟩
  intro file mode lang topt copt net now fuel r reqs h hp
  rw [Parse] at hp
  rw [if_neg h] at hp
  simp only [resolveAPIKey] at hp
  split at hp
  · simp at hp
    obtain ⟨rfl, rfl⟩ := hp
    simp
  · split at hp
    · simp at hp
      obtain ⟨rfl, rfl⟩ := hp
      simp
    · split at hp
      · simp at hp
        obtain ⟨rfl, rfl⟩ := hp
        simp
      · split at hp
        · simp at hp
          obtain ⟨rfl, rfl⟩ := hp
          simp
        · split at hp
          · simp at hp
          · rename_i p hl
            simp at hp
            obtain ⟨rfl, rfl⟩ := hp
            refine ⟨?_, by simp⟩
            exact getJobResultLoop_ne_ErrNoAPIKey _ _ _ _ _ _ _ fuel 0 1 p.1 p.2 hl

/-- Witness for C10: with the credential explicitly the empty string and
a network on which the upload call fails with a transport error, the
error returned is that transport error (not `ErrNoAPIKey`) and the
issued upload request carries the header value "Bearer ". -/
theorem c10_witness :
    (Except.error (GoError.transport "no network") : Except GoError String) ≠
      Except.error GoError.ErrNoAPIKey ∧
    [uploadRequest "" [1] none].head? = some (uploadRequest "" [1] none) :=
  (c10_explicit_empty_credential "env").2 [1] MARKDOWN none none none noNet
    zeroNow 1 (Except.error (GoError.transport "no network"))
    [uploadRequest "" [1] none] (by decide) rfl

end Llamaparse
